import Mathlib

/-!
Shallow embedding of `src/frontend-common/vulkan_host_display.cpp`
(class `VulkanHostDisplay` of the duckstation front-end).

The Vulkan driver, the `Vulkan::Context` / `Vulkan::SwapChain` helpers, the
shader cache and the post-processing chain parser are external collaborators
of this file; their call results are supplied to each modelled member function
through explicit oracle records, and the member functions themselves are
translated statement by statement from the source.  Each modelled function
carries the line range of the C++ it embeds.
-/

set_option maxRecDepth 8000

namespace VulkanHostDisplaySpec

/-- Vulkan result codes distinguished by `VulkanHostDisplay::Render`;
`otherError` stands for any further failure code returned by
`vkAcquireNextImageKHR`. -/
inductive VkResult where
  | VK_SUCCESS
  | VK_SUBOPTIMAL_KHR
  | VK_ERROR_OUT_OF_DATE_KHR
  | VK_ERROR_SURFACE_LOST_KHR
  | otherError
deriving DecidableEq, Repr

/-- Window kind: only the distinction made by the source (`WindowInfo::Type::Surfaceless`
versus everything else) matters. -/
inductive WindowType where
  | Surfaceless
  | Surfaced
deriving DecidableEq, Repr

/-- Modelled from the spec: `WindowInfo` belongs to the external `HostDisplay`
interface (`common/window_info.h` is not part of this slice).  `surfaceId`
stands for the platform window handle and the extent data, so that distinct
windows compare unequal. -/
structure WindowInfo where
  type : WindowType
  surfaceId : Nat
deriving DecidableEq, Repr

/-- Modelled from the spec: a default-constructed `WindowInfo` (the
`m_window_info = {}` assignment in `CreateRenderDevice`) is surfaceless with a
null handle. -/
def WindowInfo.empty : WindowInfo := ⟨WindowType.Surfaceless, 0⟩

/-- Modelled from the spec: `WindowInfo::SetSurfaceless` clears the window
handle and marks the info surfaceless. -/
def WindowInfo.SetSurfaceless (wi : WindowInfo) : WindowInfo :=
  { wi with type := WindowType.Surfaceless, surfaceId := 0 }

/-- Swap-chain texture formats distinguished by `RenderScreenshot`'s `switch`;
`otherFormat` is any format hitting the `default` case. -/
inductive VkFormat where
  | R8G8B8A8_UNORM
  | R8G8B8A8_SRGB
  | B8G8R8A8_UNORM
  | B8G8R8A8_SRGB
  | A1R5G5B5_UNORM_PACK16
  | R5G6B5_UNORM_PACK16
  | otherFormat
deriving DecidableEq, Repr

/-- Modelled from the spec: the `Vulkan::SwapChain` collaborator, reduced to
the observations this file makes of it (`GetWindowInfo`, `GetTextureFormat`). -/
structure SwapChain where
  windowInfo : WindowInfo
  textureFormat : VkFormat
deriving DecidableEq, Repr

/-- Modelled from the spec: one `FrontendCommon::PostProcessingShader` of the
chain collaborator, reduced to the two queries `SetPostProcessingChain` makes
of it. -/
structure PPShader where
  usePushConstants : Bool
  uniformsSize : Nat
deriving DecidableEq, Repr

/-- One entry of `m_post_processing_stages` (struct `PostProcessingStage`),
reduced to the data this file stores in it. -/
structure PostProcessingStage where
  uniformsSize : Nat
  usePushConstantsLayout : Bool
deriving DecidableEq, Repr

/-- The member state of `VulkanHostDisplay` relevant to the verified claims. -/
structure DisplayState where
  /-- `m_swap_chain` -/
  swapChain : Option SwapChain
  /-- `m_window_info` (inherited from `HostDisplay`) -/
  windowInfo : WindowInfo
  /-- `m_is_adreno` -/
  isAdreno : Bool
  /-- `m_readback_staging_buffer_size` -/
  readbackStagingBufferSize : Nat
  /-- `m_readback_staging_buffer`: `some capacity` when a buffer of that byte
  capacity is allocated, `none` for `VK_NULL_HANDLE` -/
  readbackStagingBuffer : Option Nat
  /-- `m_post_processing_stages` -/
  postProcessingStages : List PostProcessingStage
  /-- stages held by the `m_post_processing_chain` collaborator -/
  postProcessingChain : List PPShader
  /-- `m_post_processing_ubo.GetCurrentSize()` -/
  postProcessingUboSize : Nat
deriving DecidableEq, Repr

/-- `VulkanHostDisplay::HasRenderSurface` (vulkan_host_display.cpp:250-253). -/
def HasRenderSurface (s : DisplayState) : Bool :=
  s.swapChain.isSome

/-- `VulkanHostDisplay::SupportsFullscreen` (vulkan_host_display.cpp:111-114). -/
def SupportsFullscreen (_s : DisplayState) : Bool := false

/-- `VulkanHostDisplay::IsFullscreen` (vulkan_host_display.cpp:116-119). -/
def IsFullscreen (_s : DisplayState) : Bool := false

/-- `VulkanHostDisplay::SetFullscreen` (vulkan_host_display.cpp:121-124); all
four arguments are ignored by the source. -/
def SetFullscreen (_s : DisplayState) (_fullscreen : Bool) (_width _height : Nat)
    (_refreshRate : Rat) : Bool := false

/-- Observable calls `ChangeRenderWindow` makes on its collaborators. -/
inductive CWEvent where
  | executeCommandBuffer
  | recreateSurface (ok : Bool)
  | createVulkanSurface (ok : Bool)
  | createSwapChain (ok : Bool)
  | destroyVulkanSurface
deriving DecidableEq, Repr

/-- Oracle for the external calls of `ChangeRenderWindow`: outcome of
`SwapChain::RecreateSurface` (and the window info the swap chain reports after
it), of `SwapChain::CreateVulkanSurface`, and of `SwapChain::Create` (with the
created chain's contents). -/
structure ChangeWindowOracle where
  recreateOk : Bool
  recreatedWi : WindowInfo
  surfaceOk : Bool
  createOk : Bool
  createdChain : SwapChain
deriving Repr

/-- Result of a `ChangeRenderWindow` call. -/
structure ChangeWindowResult where
  state : DisplayState
  ret : Bool
  events : List CWEvent
deriving Repr

/-- Surface/swap-chain creation tail of `ChangeRenderWindow`
(vulkan_host_display.cpp:80-98), entered when no usable swap chain exists. -/
def ChangeRenderWindowCreate (s : DisplayState) (o : ChangeWindowOracle)
    (ev : List CWEvent) : ChangeWindowResult :=
  if o.surfaceOk = false then
    ⟨s, false, ev ++ [CWEvent.createVulkanSurface false]⟩
  else if o.createOk = false then
    ⟨s, false, ev ++ [CWEvent.createVulkanSurface true, CWEvent.createSwapChain false,
                      CWEvent.destroyVulkanSurface]⟩
  else
    ⟨{ s with swapChain := some o.createdChain,
              windowInfo := o.createdChain.windowInfo },
      true,
      ev ++ [CWEvent.createVulkanSurface true, CWEvent.createSwapChain true]⟩

/-- `VulkanHostDisplay::ChangeRenderWindow` (vulkan_host_display.cpp:56-99). -/
def ChangeRenderWindow (s : DisplayState) (o : ChangeWindowOracle)
    (new_wi : WindowInfo) : ChangeWindowResult :=
  if new_wi.type = WindowType.Surfaceless then
    ⟨{ s with swapChain := none, windowInfo := new_wi }, true,
      [CWEvent.executeCommandBuffer]⟩
  else
    match s.swapChain with
    | some sc =>
      if o.recreateOk then
        let sc2 : SwapChain := { sc with windowInfo := o.recreatedWi }
        ⟨{ s with swapChain := some sc2, windowInfo := sc2.windowInfo }, true,
          [CWEvent.recreateSurface true]⟩
      else
        ChangeRenderWindowCreate { s with swapChain := none } o
          [CWEvent.recreateSurface false]
    | none => ChangeRenderWindowCreate s o []

/-- `VulkanHostDisplay::ResizeRenderWindow` (vulkan_host_display.cpp:101-109):
`none` models the `Panic` on `ResizeSwapChain` failure (and the null
dereference when no swap chain exists); on success the swap chain reports
window info `resizedWi`. -/
def ResizeRenderWindow (s : DisplayState) (resizeOk : Bool)
    (resizedWi : WindowInfo) : Option DisplayState :=
  match s.swapChain with
  | none => none
  | some sc =>
    if resizeOk then
      let sc2 : SwapChain := { sc with windowInfo := resizedWi }
      some { s with swapChain := some sc2, windowInfo := sc2.windowInfo }
    else none

/-- `VulkanHostDisplay::DestroyRenderSurface` (vulkan_host_display.cpp:131-136). -/
def DestroyRenderSurface (s : DisplayState) : DisplayState :=
  { s with windowInfo := s.windowInfo.SetSurfaceless, swapChain := none }

/-- `VK_DRIVER_ID_QUALCOMM_PROPRIETARY` of the Vulkan headers. -/
def VK_DRIVER_ID_QUALCOMM_PROPRIETARY : Nat := 8

/-- Oracle for `CreateRenderDevice`: outcome of `Vulkan::Context::Create`
(which on success may hand back a swap chain and adjusts the local window
info) and the physical-device identification the source reads afterwards. -/
structure CreateDeviceOracle where
  contextOk : Bool
  createdChain : Option SwapChain
  localWi : WindowInfo
  vendorID : Nat
  driverID : Nat
deriving Repr

/-- `VulkanHostDisplay::CreateRenderDevice` (vulkan_host_display.cpp:217-235).
Modelled from the spec for the failure path of the external
`Vulkan::Context::Create`: the context collaborator cleans up after itself, so
no swap chain is handed back on failure. -/
def CreateRenderDevice (s : DisplayState) (o : CreateDeviceOracle)
    (_wi : WindowInfo) : DisplayState × Bool :=
  if o.contextOk = false then
    ({ s with swapChain := none, windowInfo := WindowInfo.empty }, false)
  else
    let adreno := o.vendorID == 0x5143 ||
      o.driverID == VK_DRIVER_ID_QUALCOMM_PROPRIETARY
    let wi2 := match o.createdChain with
      | some sc => sc.windowInfo
      | none => o.localWi
    ({ s with swapChain := o.createdChain, isAdreno := adreno, windowInfo := wi2 },
      true)

/-- `VK_MEMORY_PROPERTY_HOST_COHERENT_BIT` of the Vulkan headers. -/
def VK_MEMORY_PROPERTY_HOST_COHERENT_BIT : Nat := 2

/-- `VK_MEMORY_PROPERTY_HOST_CACHED_BIT` of the Vulkan headers. -/
def VK_MEMORY_PROPERTY_HOST_CACHED_BIT : Nat := 8

/-- `VulkanHostDisplay::DestroyStagingBuffer` (vulkan_host_display.cpp:269-281). -/
def DestroyStagingBuffer (s : DisplayState) : DisplayState :=
  if s.readbackStagingBuffer = none then s
  else { s with readbackStagingBuffer := none, readbackStagingBufferSize := 0 }

/-- The size and `VmaAllocationCreateInfo::preferredFlags` of a
`vmaCreateBuffer` request issued by `CheckStagingBufferSize`. -/
structure AllocRequest where
  size : Nat
  preferredFlags : Nat
deriving DecidableEq, Repr

/-- Result of a `CheckStagingBufferSize` call: the new member state, the
return value, and the allocation request issued to `vmaCreateBuffer` when one
was made. -/
structure CheckStagingResult where
  state : DisplayState
  ok : Bool
  allocRequest : Option AllocRequest
deriving DecidableEq, Repr

/-- `VulkanHostDisplay::CheckStagingBufferSize` (vulkan_host_display.cpp:349-382);
`allocOk` is the `vmaCreateBuffer` outcome.  Note that the source never
assigns `m_readback_staging_buffer_size` after a successful allocation: only
`DestroyStagingBuffer` (which zeroes it) ever writes the field. -/
def CheckStagingBufferSize (s : DisplayState) (required_size : Nat)
    (allocOk : Bool) : CheckStagingResult :=
  if s.readbackStagingBufferSize ≥ required_size then ⟨s, true, none⟩
  else
    let s1 := DestroyStagingBuffer s
    let req : AllocRequest :=
      ⟨required_size,
        if s.isAdreno then
          VK_MEMORY_PROPERTY_HOST_CACHED_BIT ||| VK_MEMORY_PROPERTY_HOST_COHERENT_BIT
        else VK_MEMORY_PROPERTY_HOST_CACHED_BIT⟩
    if allocOk then
      ⟨{ s1 with readbackStagingBuffer := some required_size }, true, some req⟩
    else ⟨s1, false, some req⟩

/-- `VulkanHostDisplay::DownloadTexture` (vulkan_host_display.cpp:283-347),
reduced to its staging-buffer management: `size = pitch * height` is the
argument of the `CheckStagingBufferSize` call, and the GPU copy itself is
outside the model. -/
def DownloadTexture (s : DisplayState) (pitch height : Nat) (allocOk : Bool) :
    DisplayState × Bool :=
  let r := CheckStagingBufferSize s (pitch * height) allocOk
  if r.ok then (r.state, true) else (r.state, false)

/-- Observable calls `Render` makes on its collaborators, in order. -/
inductive RenderEvent where
  | imguiRender
  | waitForPresentComplete
  | acquireNextImage (res : VkResult)
  | resizeSwapChain
  | recreateSurface (ok : Bool)
  | executeCommandBuffer (waitForCompletion : Bool)
  | drawFrame
  | submitAndPresent
deriving DecidableEq, Repr

/-- Oracle for the external calls of `Render`: the result of the first and (if
reached) second `AcquireNextImage`, the `RecreateSurface` outcome, and the
`ResizeSwapChain` outcome with the window info the resized chain reports. -/
structure RenderOracle where
  acquire1 : VkResult
  acquire2 : VkResult
  recreateOk : Bool
  recreatedWi : WindowInfo
  resizeOk : Bool
  resizedWi : WindowInfo
deriving Repr

/-- Result of a `Render` call.  `presented` is true exactly when the frame was
submitted for presentation (`SubmitCommandBuffer` with the swap chain);
`panicked` marks the unreachable-by-claim `Panic` inside `ResizeRenderWindow`. -/
structure RenderResult where
  state : DisplayState
  ret : Bool
  events : List RenderEvent
  presented : Bool
  panicked : Bool
deriving Repr

/-- Presentation tail of `Render` (vulkan_host_display.cpp:630-657): draw the
frame (display, optional ImGui, cursor) and submit it for presentation. -/
def RenderPresent (s : DisplayState) (ev : List RenderEvent)
    (imguiActive : Bool) : RenderResult :=
  let drawEvs := if imguiActive then
      [RenderEvent.drawFrame, RenderEvent.imguiRender]
    else [RenderEvent.drawFrame]
  ⟨s, true, ev ++ drawEvs ++ [RenderEvent.submitAndPresent], true, false⟩

/-- Re-check after the retry block of `Render` (vulkan_host_display.cpp:621-627):
if the (possibly retried) acquire result is neither `VK_SUCCESS` nor
`VK_SUBOPTIMAL_KHR`, submit the pending command buffer and bail out. -/
def RenderAfterAcquire (s : DisplayState) (res : VkResult)
    (ev : List RenderEvent) (imguiActive : Bool) : RenderResult :=
  if res = VkResult.VK_SUCCESS ∨ res = VkResult.VK_SUBOPTIMAL_KHR then
    RenderPresent s ev imguiActive
  else
    ⟨s, false, ev ++ [RenderEvent.executeCommandBuffer false], false, false⟩

/-- `VulkanHostDisplay::Render` (vulkan_host_display.cpp:584-658).
`imguiActive` models `ImGui::GetCurrentContext() != nullptr`. -/
def Render (s : DisplayState) (o : RenderOracle) (skip_present imguiActive : Bool) :
    RenderResult :=
  match s.swapChain with
  | none =>
    ⟨s, false, if imguiActive then [RenderEvent.imguiRender] else [], false, false⟩
  | some sc =>
    if skip_present then
      ⟨s, false, if imguiActive then [RenderEvent.imguiRender] else [], false, false⟩
    else
      let ev0 := [RenderEvent.waitForPresentComplete,
                  RenderEvent.acquireNextImage o.acquire1]
      if o.acquire1 = VkResult.VK_SUCCESS then
        RenderPresent s ev0 imguiActive
      else if o.acquire1 = VkResult.VK_SUBOPTIMAL_KHR ∨
              o.acquire1 = VkResult.VK_ERROR_OUT_OF_DATE_KHR then
        match ResizeRenderWindow s o.resizeOk o.resizedWi with
        | none => ⟨s, false, ev0 ++ [RenderEvent.resizeSwapChain], false, true⟩
        | some s2 =>
          RenderAfterAcquire s2 o.acquire2
            (ev0 ++ [RenderEvent.resizeSwapChain,
                     RenderEvent.acquireNextImage o.acquire2]) imguiActive
      else if o.acquire1 = VkResult.VK_ERROR_SURFACE_LOST_KHR then
        if o.recreateOk then
          let sc2 : SwapChain := { sc with windowInfo := o.recreatedWi }
          RenderAfterAcquire { s with swapChain := some sc2 } o.acquire2
            (ev0 ++ [RenderEvent.recreateSurface true,
                     RenderEvent.acquireNextImage o.acquire2]) imguiActive
        else
          ⟨{ s with swapChain := none }, false,
            ev0 ++ [RenderEvent.recreateSurface false,
                    RenderEvent.executeCommandBuffer false], false, false⟩
      else
        RenderAfterAcquire s o.acquire1 ev0 imguiActive

/-- `HostDisplay::GPUTexture::Format` values produced by `RenderScreenshot`. -/
inductive GPUTextureFormat where
  | RGBA8
  | BGRA8
  | RGBA5551
  | RGB565
deriving DecidableEq, Repr

/-- Element count `out_pixels` holds after the `switch` over the swap-chain
format in `RenderScreenshot` (vulkan_host_display.cpp:668-699); `old` is the
entry count kept by the unhandled `default` case, which performs no resize. -/
def screenshotPixelCount (fmt : VkFormat) (width height old : Nat) : Nat :=
  match fmt with
  | .R8G8B8A8_UNORM | .R8G8B8A8_SRGB | .B8G8R8A8_UNORM | .B8G8R8A8_SRGB =>
    width * height
  | .A1R5G5B5_UNORM_PACK16 | .R5G6B5_UNORM_PACK16 => (width * height + 1) / 2
  | .otherFormat => old

/-- Value written to `*out_format` by `RenderScreenshot`'s `switch`; `none`
when the `default` case leaves the out-parameter unwritten. -/
def screenshotOutFormat (fmt : VkFormat) : Option GPUTextureFormat :=
  match fmt with
  | .R8G8B8A8_UNORM | .R8G8B8A8_SRGB => some GPUTextureFormat.RGBA8
  | .B8G8R8A8_UNORM | .B8G8R8A8_SRGB => some GPUTextureFormat.BGRA8
  | .A1R5G5B5_UNORM_PACK16 => some GPUTextureFormat.RGBA5551
  | .R5G6B5_UNORM_PACK16 => some GPUTextureFormat.RGB565
  | .otherFormat => none

/-- Value written to `*out_stride` by `RenderScreenshot`'s `switch`. -/
def screenshotOutStride (fmt : VkFormat) (width : Nat) : Option Nat :=
  match fmt with
  | .R8G8B8A8_UNORM | .R8G8B8A8_SRGB | .B8G8R8A8_UNORM | .B8G8R8A8_SRGB =>
    some (4 * width)
  | .A1R5G5B5_UNORM_PACK16 | .R5G6B5_UNORM_PACK16 => some (2 * width)
  | .otherFormat => none

/-- `std::vector<u32>::resize` semantics: truncate when shrinking, append
value-initialised (zero) elements when growing. -/
def vectorResize (v : List Nat) (n : Nat) : List Nat :=
  v.take n ++ List.replicate (n - v.length) 0

/-- Oracle for the external calls of `RenderScreenshot`:
`HasDisplayTexture()`, the intermediate texture / render pass / framebuffer
creation outcomes, and the pixel contents the GPU render plus
`DownloadTexture` readback produce on the full path. -/
structure ScreenshotOracle where
  hasDisplayTexture : Bool
  texCreateOk : Bool
  renderPassOk : Bool
  framebufferOk : Bool
  renderedPixels : List Nat
deriving Repr

/-- Result of a `RenderScreenshot` call: the return value, the contents of
`*out_pixels`, the out-parameters (`none` = left unwritten), and whether any
display rendering was recorded. -/
structure ScreenshotResult where
  ret : Bool
  pixels : List Nat
  stride : Option Nat
  format : Option GPUTextureFormat
  renderedDisplay : Bool
deriving DecidableEq, Repr

/-- `VulkanHostDisplay::RenderScreenshot` (vulkan_host_display.cpp:660-755),
reduced to its observable outputs (the staging-buffer side effect of the final
`DownloadTexture` call is modelled by `DownloadTexture` itself). -/
def RenderScreenshot (s : DisplayState) (o : ScreenshotOracle)
    (width height : Nat) (oldPixels : List Nat) : ScreenshotResult :=
  match s.swapChain with
  | none => ⟨false, oldPixels, none, none, false⟩
  | some sc =>
    let fmt := sc.textureFormat
    let pixels1 := vectorResize oldPixels (screenshotPixelCount fmt width height oldPixels.length)
    let outFormat := screenshotOutFormat fmt
    let outStride := screenshotOutStride fmt width
    if o.hasDisplayTexture = false then
      ⟨true, List.replicate pixels1.length 0, outStride, outFormat, false⟩
    else if o.texCreateOk = false then ⟨false, pixels1, outStride, outFormat, false⟩
    else if o.renderPassOk = false then ⟨false, pixels1, outStride, outFormat, false⟩
    else if o.framebufferOk = false then ⟨false, pixels1, outStride, outFormat, false⟩
    else ⟨true, o.renderedPixels, outStride, outFormat, true⟩

/-- `PUSH_CONSTANT_SIZE_THRESHOLD`-independent UBO size constant of
`SetPostProcessingChain` (vulkan_host_display.cpp:1030). -/
def UBO_SIZE : Nat := 1024 * 1024

/-- Oracle for the external calls of `SetPostProcessingChain`:
`PostProcessingChain::CreateFromString` (parse result; `chainOnParseFail` is
the stage list the external chain object holds after a failed parse), the
per-stage shader and pipeline build outcomes, and the UBO creation outcome. -/
structure SetPPOracle where
  parsed : Option (List PPShader)
  chainOnParseFail : List PPShader
  shaderOk : Nat → Bool
  pipelineOk : Nat → Bool
  uboCreateOk : Bool

/-- Stage-compilation loop of `SetPostProcessingChain`
(vulkan_host_display.cpp:976-1028): `none` when a shader module or pipeline of
some stage fails to build (upon which the source clears both stage lists). -/
def buildStages (o : SetPPOracle) : List PPShader → Nat → Option (List PostProcessingStage)
  | [], _ => some []
  | sh :: rest, i =>
    if o.shaderOk i = false then none
    else if o.pipelineOk i = false then none
    else
      match buildStages o rest (i + 1) with
      | none => none
      | some tl =>
        some ({ uniformsSize := sh.uniformsSize,
                usePushConstantsLayout := sh.usePushConstants } :: tl)

/-- Result of a `SetPostProcessingChain` call. -/
structure SetPPResult where
  state : DisplayState
  ret : Bool

/-- `VulkanHostDisplay::SetPostProcessingChain` (vulkan_host_display.cpp:957-1043). -/
def SetPostProcessingChain (s : DisplayState) (o : SetPPOracle)
    (config : String) : SetPPResult :=
  if config.isEmpty then
    ⟨{ s with postProcessingStages := [], postProcessingChain := [] }, true⟩
  else
    match o.parsed with
    | none => ⟨{ s with postProcessingChain := o.chainOnParseFail }, false⟩
    | some shaders =>
      let s1 := { s with postProcessingChain := shaders, postProcessingStages := [] }
      match buildStages o shaders 0 with
      | none =>
        ⟨{ s1 with postProcessingStages := [], postProcessingChain := [] }, false⟩
      | some stages =>
        let onlyPush := shaders.all (fun sh => sh.usePushConstants)
        if onlyPush = false ∧ s1.postProcessingUboSize < UBO_SIZE then
          if o.uboCreateOk = false then
            ⟨{ s1 with postProcessingStages := [], postProcessingChain := [] }, false⟩
          else
            ⟨{ s1 with postProcessingStages := stages, postProcessingUboSize := UBO_SIZE },
              true⟩
        else
          ⟨{ s1 with postProcessingStages := stages }, true⟩

/-- Textures sampled by a post-processing draw. -/
inductive PPTex where
  | displayTexture
  | inputTexture
  | stageOutput (i : Nat)
deriving DecidableEq, Repr

/-- Framebuffers drawn into by `ApplyPostProcessingChain`. -/
inductive PPFb where
  | targetFb
  | inputFb
  | stageFb (i : Nat)
deriving DecidableEq, Repr

/-- Render passes recorded by `ApplyPostProcessingChain`: the initial display
blit and the numbered stage draws, each with its target framebuffer and the
texture it samples. -/
inductive PPEvent where
  | displayDraw (target : PPFb)
  | stageDraw (i : Nat) (target : PPFb) (input : PPTex)
deriving DecidableEq, Repr

/-- Stage loop of `ApplyPostProcessingChain` (vulkan_host_display.cpp:1138-1216):
stage `i` samples `cur` and draws into its own output framebuffer, except the
final stage which draws into the caller's target; a failed descriptor-set
allocation (`dsOk i = false`) returns early. -/
def ppStageLoop (n : Nat) (dsOk : Nat → Bool) (i : Nat) (cur : PPTex) :
    List PPEvent :=
  if h : i < n then
    if dsOk i = false then []
    else if i ≠ n - 1 then
      PPEvent.stageDraw i (PPFb.stageFb i) cur ::
        ppStageLoop n dsOk (i + 1) (PPTex.stageOutput i)
    else
      PPEvent.stageDraw i PPFb.targetFb cur :: ppStageLoop n dsOk (i + 1) cur
  else []
termination_by n - i

/-- `VulkanHostDisplay::ApplyPostProcessingChain` (vulkan_host_display.cpp:1105-1216)
as the sequence of draws it records: `numStages` is
`m_post_processing_stages.size()`, `checkTargetsOk` the result of
`CheckPostProcessingRenderTargets`, and `dsOk i` the descriptor-set allocation
outcome for stage `i`. -/
def ApplyPostProcessingChain (numStages : Nat) (checkTargetsOk : Bool)
    (dsOk : Nat → Bool) : List PPEvent :=
  if checkTargetsOk = false then [PPEvent.displayDraw PPFb.targetFb]
  else
    PPEvent.displayDraw PPFb.inputFb :: ppStageLoop numStages dsOk 0 PPTex.inputTexture

/-! ### Concrete sample values used by witnesses and counterexamples -/

/-- A surfaced window. -/
def wiA : WindowInfo := ⟨WindowType.Surfaced, 1⟩

/-- Another surfaced window. -/
def wiB : WindowInfo := ⟨WindowType.Surfaced, 2⟩

/-- A surfaceless window. -/
def wiS : WindowInfo := ⟨WindowType.Surfaceless, 0⟩

/-- A swap chain for `wiA` with an RGBA8 backbuffer. -/
def scA : SwapChain := ⟨wiA, VkFormat.R8G8B8A8_UNORM⟩

/-- A display state owning swap chain `scA`, on a non-Adreno device, with no
staging buffer and no post-processing chain. -/
def baseState : DisplayState :=
  ⟨some scA, wiA, false, 0, none, [], [], 0⟩

/-- Oracle whose external calls all succeed. -/
def oCW : ChangeWindowOracle := ⟨true, wiB, true, true, scA⟩

/-! ### Theorems -/

/-- C9: the Vulkan display never supports exclusive fullscreen:
`SupportsFullscreen()` and `IsFullscreen()` return `false`, and
`SetFullscreen(fullscreen, width, height, refresh_rate)` returns `false` for
every combination of arguments. -/
theorem fullscreen_never_supported (s : DisplayState) (fullscreen : Bool)
    (width height : Nat) (refreshRate : Rat) :
    SupportsFullscreen s = false ∧ IsFullscreen s = false ∧
    SetFullscreen s fullscreen width height refreshRate = false :=
  ⟨rfl, rfl, rfl⟩

/-- C10: `ChangeRenderWindow` called with a window of type `Surfaceless`
always succeeds: it destroys any existing swap chain, stores the new window
info, and returns `true` without attempting to create a Vulkan surface,
leaving `HasRenderSurface()` false. -/
theorem changeRenderWindow_surfaceless (s : DisplayState)
    (o : ChangeWindowOracle) (wi : WindowInfo)
    (hwi : wi.type = WindowType.Surfaceless) :
    (ChangeRenderWindow s o wi).ret = true ∧
    (ChangeRenderWindow s o wi).state.swapChain = none ∧
    (ChangeRenderWindow s o wi).state.windowInfo = wi ∧
    HasRenderSurface (ChangeRenderWindow s o wi).state = false ∧
    (ChangeRenderWindow s o wi).events = [CWEvent.executeCommandBuffer] ∧
    (∀ b, CWEvent.createVulkanSurface b ∉ (ChangeRenderWindow s o wi).events) := by
  simp [ChangeRenderWindow, hwi, HasRenderSurface]

/-- Witness for `changeRenderWindow_surfaceless` at a concrete surfaceless
window. -/
theorem changeRenderWindow_surfaceless_witness :
    (ChangeRenderWindow baseState oCW wiS).ret = true ∧
    (ChangeRenderWindow baseState oCW wiS).state.swapChain = none ∧
    HasRenderSurface (ChangeRenderWindow baseState oCW wiS).state = false :=
  ⟨(changeRenderWindow_surfaceless baseState oCW wiS rfl).1,
   (changeRenderWindow_surfaceless baseState oCW wiS rfl).2.1,
   (changeRenderWindow_surfaceless baseState oCW wiS rfl).2.2.2.1⟩

/-- Oracle for a `Render` call whose first acquire reports surface loss and
whose surface recreation fails. -/
def oRenderLost : RenderOracle :=
  ⟨VkResult.VK_ERROR_SURFACE_LOST_KHR, VkResult.VK_SUCCESS, false, wiA, true, wiA⟩

/-- C2: in `Render`, if the acquire fails with `VK_ERROR_SURFACE_LOST_KHR` and
recreating the surface also fails, the current command buffer is executed, the
swap chain is destroyed (so `HasRenderSurface()` is false afterwards), and
`Render` returns `false`. -/
theorem render_surface_loss_unrecoverable (s : DisplayState) (o : RenderOracle)
    (sc : SwapChain) (imguiActive : Bool) (hsc : s.swapChain = some sc)
    (h1 : o.acquire1 = VkResult.VK_ERROR_SURFACE_LOST_KHR)
    (h2 : o.recreateOk = false) :
    (Render s o false imguiActive).ret = false ∧
    (Render s o false imguiActive).state.swapChain = none ∧
    HasRenderSurface (Render s o false imguiActive).state = false ∧
    (Render s o false imguiActive).presented = false ∧
    (Render s o false imguiActive).events =
      [RenderEvent.waitForPresentComplete,
       RenderEvent.acquireNextImage VkResult.VK_ERROR_SURFACE_LOST_KHR,
       RenderEvent.recreateSurface false,
       RenderEvent.executeCommandBuffer false] := by
  simp [Render, hsc, h1, h2, HasRenderSurface]

/-- Witness for `render_surface_loss_unrecoverable` at a concrete state and
oracle. -/
theorem render_surface_loss_unrecoverable_witness :
    (Render baseState oRenderLost false false).ret = false ∧
    (Render baseState oRenderLost false false).state.swapChain = none ∧
    HasRenderSurface (Render baseState oRenderLost false false).state = false :=
  ⟨(render_surface_loss_unrecoverable baseState oRenderLost scA false rfl rfl rfl).1,
   (render_surface_loss_unrecoverable baseState oRenderLost scA false rfl rfl rfl).2.1,
   (render_surface_loss_unrecoverable baseState oRenderLost scA false rfl rfl rfl).2.2.1⟩

/-- C3: when `CheckStagingBufferSize` allocates a new readback staging buffer,
the preferred memory-property flags it requests are
`VK_MEMORY_PROPERTY_HOST_CACHED_BIT` together with
`VK_MEMORY_PROPERTY_HOST_COHERENT_BIT` exactly when the device was detected as
Adreno in `CreateRenderDevice` (vendorID 0x5143 or driverID
`VK_DRIVER_ID_QUALCOMM_PROPRIETARY`), and
`VK_MEMORY_PROPERTY_HOST_CACHED_BIT` alone otherwise. -/
theorem adreno_staging_buffer_flags (s : DisplayState) (o : CreateDeviceOracle)
    (wi : WindowInfo) (required : Nat) (allocOk : Bool)
    (hctx : o.contextOk = true)
    (halloc : ((CreateRenderDevice s o wi).1).readbackStagingBufferSize < required) :
    (o.vendorID = 0x5143 ∨ o.driverID = VK_DRIVER_ID_QUALCOMM_PROPRIETARY →
      (CheckStagingBufferSize (CreateRenderDevice s o wi).1 required allocOk).allocRequest =
        some ⟨required,
          VK_MEMORY_PROPERTY_HOST_CACHED_BIT ||| VK_MEMORY_PROPERTY_HOST_COHERENT_BIT⟩) ∧
    (¬(o.vendorID = 0x5143 ∨ o.driverID = VK_DRIVER_ID_QUALCOMM_PROPRIETARY) →
      (CheckStagingBufferSize (CreateRenderDevice s o wi).1 required allocOk).allocRequest =
        some ⟨required, VK_MEMORY_PROPERTY_HOST_CACHED_BIT⟩) := by
  have hadreno : ((CreateRenderDevice s o wi).1).isAdreno =
      (o.vendorID == 0x5143 || o.driverID == VK_DRIVER_ID_QUALCOMM_PROPRIETARY) := by
    simp [CreateRenderDevice, hctx]
  constructor
  · intro hdet
    have hb : ((CreateRenderDevice s o wi).1).isAdreno = true := by
      rw [hadreno]
      rcases hdet with h | h <;> simp [h]
    cases allocOk <;> simp [CheckStagingBufferSize, Nat.not_le.mpr halloc, hb]
  · intro hdet
    have hb : ((CreateRenderDevice s o wi).1).isAdreno = false := by
      rw [hadreno]
      push_neg at hdet
      simp [hdet.1, hdet.2]
    cases allocOk <;> simp [CheckStagingBufferSize, Nat.not_le.mpr halloc, hb]

/-- Oracle for a successful device creation on a Qualcomm Adreno GPU
(vendorID 0x5143). -/
def oAdrenoDevice : CreateDeviceOracle := ⟨true, some scA, wiA, 0x5143, 1⟩

/-- Witness for `adreno_staging_buffer_flags`: an Adreno device requests
`HOST_CACHED | HOST_COHERENT` for a fresh staging buffer. -/
theorem adreno_staging_buffer_flags_witness :
    (CheckStagingBufferSize (CreateRenderDevice baseState oAdrenoDevice wiA).1 64 true).allocRequest =
      some ⟨64, VK_MEMORY_PROPERTY_HOST_CACHED_BIT ||| VK_MEMORY_PROPERTY_HOST_COHERENT_BIT⟩ :=
  (adreno_staging_buffer_flags baseState oAdrenoDevice wiA 64 true rfl
    (by decide)).1 (Or.inl rfl)

/-- C7 (code bug): `m_readback_staging_buffer_size` is never assigned after a
successful allocation, so a buffer that already covers a request is destroyed
and reallocated, and the staging buffer can shrink: after a successful
100-byte `CheckStagingBufferSize`, a 50-byte request destroys the 100-byte
buffer and allocates a 50-byte one. -/
theorem staging_buffer_size_never_recorded :
    (CheckStagingBufferSize baseState 100 true).ok = true ∧
    (CheckStagingBufferSize baseState 100 true).state.readbackStagingBuffer = some 100 ∧
    (CheckStagingBufferSize baseState 100 true).state.readbackStagingBufferSize = 0 ∧
    (CheckStagingBufferSize (CheckStagingBufferSize baseState 100 true).state 50 true).allocRequest =
      some ⟨50, VK_MEMORY_PROPERTY_HOST_CACHED_BIT⟩ ∧
    (CheckStagingBufferSize (CheckStagingBufferSize baseState 100 true).state 50 true).state.readbackStagingBuffer =
      some 50 := by
  decide

/-- The implicit invariant of C8: whenever a swap chain exists,
`m_window_info` equals that swap chain's window info. -/
def windowInfoMatchesSwapChain (s : DisplayState) : Prop :=
  ∀ sc, s.swapChain = some sc → s.windowInfo = sc.windowInfo

/-- The surface/swap-chain creation tail of `ChangeRenderWindow` establishes
the window-info invariant when entered without a live swap chain. -/
lemma changeRenderWindowCreate_inv (s : DisplayState) (o : ChangeWindowOracle)
    (ev : List CWEvent) (hs : s.swapChain = none) :
    windowInfoMatchesSwapChain (ChangeRenderWindowCreate s o ev).state := by
  unfold ChangeRenderWindowCreate
  split
  · intro sc h
    simp only at h
    rw [hs] at h
    exact absurd h (by simp)
  · split
    · intro sc h
      simp only at h
      rw [hs] at h
      exact absurd h (by simp)
    · intro sc h
      simp only at h
      rw [Option.some_inj] at h
      rw [← h]

/-- `ChangeRenderWindow` establishes the window-info invariant
unconditionally. -/
lemma changeRenderWindow_inv (s : DisplayState) (o : ChangeWindowOracle)
    (wi : WindowInfo) :
    windowInfoMatchesSwapChain (ChangeRenderWindow s o wi).state := by
  unfold ChangeRenderWindow
  split
  · intro sc h
    simp only at h
    exact absurd h (by simp)
  · cases hsc : s.swapChain with
    | none => exact changeRenderWindowCreate_inv s o [] hsc
    | some sc0 =>
      by_cases hr : o.recreateOk
      · simp only [hr, if_true]
        intro sc h
        simp only at h
        rw [Option.some_inj] at h
        rw [← h]
      · simp only [hr, if_false]
        exact changeRenderWindowCreate_inv _ o _ rfl

/-- C8: after any of `ChangeRenderWindow`, `ResizeRenderWindow`,
`CreateRenderDevice`, or `DestroyRenderSurface` returns, if a swap chain
exists then `m_window_info` equals that swap chain's window info; and after
`DestroyRenderSurface` (or a successful `ChangeRenderWindow` to a surfaceless
window) no swap chain exists and `m_window_info` is surfaceless. -/
theorem window_info_tracks_swap_chain :
    (∀ s o wi, windowInfoMatchesSwapChain (ChangeRenderWindow s o wi).state) ∧
    (∀ s resizeOk wi s2, ResizeRenderWindow s resizeOk wi = some s2 →
      windowInfoMatchesSwapChain s2) ∧
    (∀ s o wi, windowInfoMatchesSwapChain ((CreateRenderDevice s o wi).1)) ∧
    (∀ s, (DestroyRenderSurface s).swapChain = none ∧
      ((DestroyRenderSurface s).windowInfo).type = WindowType.Surfaceless) ∧
    (∀ s o wi, wi.type = WindowType.Surfaceless →
      (ChangeRenderWindow s o wi).ret = true ∧
      (ChangeRenderWindow s o wi).state.swapChain = none ∧
      ((ChangeRenderWindow s o wi).state.windowInfo).type = WindowType.Surfaceless) := by
  refine ⟨changeRenderWindow_inv, ?_, ?_, ?_, ?_⟩
  · intro s resizeOk wi s2 h
    unfold ResizeRenderWindow at h
    cases hsc : s.swapChain with
    | none => rw [hsc] at h; exact absurd h (by simp)
    | some sc0 =>
      by_cases hr : resizeOk = true
      · simp only [hsc, hr, if_true, Option.some_inj] at h
        subst h
        intro sc hsc2
        simp only [Option.some_inj] at hsc2
        rw [← hsc2]
      · simp [hsc, hr] at h
  · intro s o wi
    unfold CreateRenderDevice
    split
    · intro sc h
      simp only at h
      exact absurd h (by simp)
    · intro sc h
      simp only at h
      cases hcc : o.createdChain with
      | none => rw [hcc] at h; exact absurd h (by simp)
      | some sc0 =>
        rw [hcc] at h
        rw [Option.some_inj] at h
        simp only [hcc, ← h]
  · intro s
    exact ⟨rfl, rfl⟩
  · intro s o wi hwi
    refine ⟨?_, ?_, ?_⟩ <;> simp [ChangeRenderWindow, hwi]

/-- Witness for `window_info_tracks_swap_chain` at concrete inputs. -/
theorem window_info_tracks_swap_chain_witness :
    ((ChangeRenderWindow baseState oCW wiB).state.swapChain =
        some ⟨wiB, VkFormat.R8G8B8A8_UNORM⟩ →
      (ChangeRenderWindow baseState oCW wiB).state.windowInfo = wiB) ∧
    (DestroyRenderSurface baseState).swapChain = none ∧
    ((DestroyRenderSurface baseState).windowInfo).type = WindowType.Surfaceless := by
  refine ⟨?_, (window_info_tracks_swap_chain.2.2.2.1 baseState).1,
    (window_info_tracks_swap_chain.2.2.2.1 baseState).2⟩
  intro h
  exact window_info_tracks_swap_chain.1 baseState oCW wiB
    ⟨wiB, VkFormat.R8G8B8A8_UNORM⟩ h

/-- Whatever the retried acquire result, the events already recorded stay a
prefix of the `Render` outcome. -/
lemma renderAfterAcquire_events_prefix (s : DisplayState) (res : VkResult)
    (ev : List RenderEvent) (imguiActive : Bool) :
    ∃ tail, (RenderAfterAcquire s res ev imguiActive).events = ev ++ tail := by
  unfold RenderAfterAcquire RenderPresent
  split
  · exact ⟨(if imguiActive = true then
        [RenderEvent.drawFrame, RenderEvent.imguiRender]
      else [RenderEvent.drawFrame]) ++ [RenderEvent.submitAndPresent],
      by simp⟩
  · exact ⟨[RenderEvent.executeCommandBuffer false], rfl⟩

/-- When the (retried) acquire result is neither `VK_SUCCESS` nor
`VK_SUBOPTIMAL_KHR`, `Render`'s tail submits the pending command buffer and
fails without presenting. -/
lemma renderAfterAcquire_fail (s : DisplayState) (res : VkResult)
    (ev : List RenderEvent) (imguiActive : Bool)
    (h : ¬(res = VkResult.VK_SUCCESS ∨ res = VkResult.VK_SUBOPTIMAL_KHR)) :
    RenderAfterAcquire s res ev imguiActive =
      ⟨s, false, ev ++ [RenderEvent.executeCommandBuffer false], false, false⟩ := by
  unfold RenderAfterAcquire
  rw [if_neg h]

/-- When the first acquire reports `VK_SUBOPTIMAL_KHR` or
`VK_ERROR_OUT_OF_DATE_KHR` and the resize succeeds, `Render` reduces to the
post-retry tail with a resize and a second acquire recorded. -/
lemma render_resize_retry_eq (s : DisplayState) (o : RenderOracle)
    (sc : SwapChain) (imguiActive : Bool) (hsc : s.swapChain = some sc)
    (h1 : o.acquire1 = VkResult.VK_SUBOPTIMAL_KHR ∨
          o.acquire1 = VkResult.VK_ERROR_OUT_OF_DATE_KHR)
    (h2 : o.resizeOk = true) :
    Render s o false imguiActive =
      RenderAfterAcquire
        { s with swapChain := some { sc with windowInfo := o.resizedWi },
                 windowInfo := o.resizedWi }
        o.acquire2
        [RenderEvent.waitForPresentComplete,
         RenderEvent.acquireNextImage o.acquire1,
         RenderEvent.resizeSwapChain,
         RenderEvent.acquireNextImage o.acquire2] imguiActive := by
  rcases h1 with h1 | h1 <;>
    simp [Render, hsc, h1, h2, ResizeRenderWindow]

/-- When the first acquire reports `VK_ERROR_SURFACE_LOST_KHR` and the surface
recreation succeeds, `Render` reduces to the post-retry tail with the
recreation and a second acquire recorded. -/
lemma render_lost_retry_eq (s : DisplayState) (o : RenderOracle)
    (sc : SwapChain) (imguiActive : Bool) (hsc : s.swapChain = some sc)
    (h1 : o.acquire1 = VkResult.VK_ERROR_SURFACE_LOST_KHR)
    (h2 : o.recreateOk = true) :
    Render s o false imguiActive =
      RenderAfterAcquire
        { s with swapChain := some { sc with windowInfo := o.recreatedWi } }
        o.acquire2
        [RenderEvent.waitForPresentComplete,
         RenderEvent.acquireNextImage o.acquire1,
         RenderEvent.recreateSurface true,
         RenderEvent.acquireNextImage o.acquire2] imguiActive := by
  simp [Render, hsc, h1, h2]

/-- C1: in `Render`, a first acquire failing with `VK_SUBOPTIMAL_KHR` or
`VK_ERROR_OUT_OF_DATE_KHR` resizes the swap chain and retries the acquire
once; one failing with `VK_ERROR_SURFACE_LOST_KHR` recreates the surface and
retries once; and whenever the retried result is neither `VK_SUCCESS` nor
`VK_SUBOPTIMAL_KHR`, the pending command buffer is submitted and `Render`
returns `false` without presenting a frame. -/
theorem render_acquire_retry_logic (s : DisplayState) (o : RenderOracle)
    (sc : SwapChain) (imguiActive : Bool) (hsc : s.swapChain = some sc) :
    ((o.acquire1 = VkResult.VK_SUBOPTIMAL_KHR ∨
      o.acquire1 = VkResult.VK_ERROR_OUT_OF_DATE_KHR) → o.resizeOk = true →
      (∃ tail, (Render s o false imguiActive).events =
        [RenderEvent.waitForPresentComplete,
         RenderEvent.acquireNextImage o.acquire1,
         RenderEvent.resizeSwapChain,
         RenderEvent.acquireNextImage o.acquire2] ++ tail) ∧
      (¬(o.acquire2 = VkResult.VK_SUCCESS ∨ o.acquire2 = VkResult.VK_SUBOPTIMAL_KHR) →
        (Render s o false imguiActive).ret = false ∧
        (Render s o false imguiActive).presented = false ∧
        (Render s o false imguiActive).events =
          [RenderEvent.waitForPresentComplete,
           RenderEvent.acquireNextImage o.acquire1,
           RenderEvent.resizeSwapChain,
           RenderEvent.acquireNextImage o.acquire2,
           RenderEvent.executeCommandBuffer false])) ∧
    (o.acquire1 = VkResult.VK_ERROR_SURFACE_LOST_KHR → o.recreateOk = true →
      (∃ tail, (Render s o false imguiActive).events =
        [RenderEvent.waitForPresentComplete,
         RenderEvent.acquireNextImage o.acquire1,
         RenderEvent.recreateSurface true,
         RenderEvent.acquireNextImage o.acquire2] ++ tail) ∧
      (¬(o.acquire2 = VkResult.VK_SUCCESS ∨ o.acquire2 = VkResult.VK_SUBOPTIMAL_KHR) →
        (Render s o false imguiActive).ret = false ∧
        (Render s o false imguiActive).presented = false ∧
        (Render s o false imguiActive).events =
          [RenderEvent.waitForPresentComplete,
           RenderEvent.acquireNextImage o.acquire1,
           RenderEvent.recreateSurface true,
           RenderEvent.acquireNextImage o.acquire2,
           RenderEvent.executeCommandBuffer false])) := by
  constructor
  · intro h1 h2
    rw [render_resize_retry_eq s o sc imguiActive hsc h1 h2]
    constructor
    · exact renderAfterAcquire_events_prefix _ _ _ _
    · intro h3
      rw [renderAfterAcquire_fail _ _ _ _ h3]
      exact ⟨rfl, rfl, rfl⟩
  · intro h1 h2
    rw [render_lost_retry_eq s o sc imguiActive hsc h1 h2]
    constructor
    · exact renderAfterAcquire_events_prefix _ _ _ _
    · intro h3
      rw [renderAfterAcquire_fail _ _ _ _ h3]
      exact ⟨rfl, rfl, rfl⟩

/-- Oracle for a `Render` call whose first acquire is out-of-date, whose
resize succeeds, and whose retried acquire still fails. -/
def oRenderRetryFail : RenderOracle :=
  ⟨VkResult.VK_ERROR_OUT_OF_DATE_KHR, VkResult.otherError, true, wiA, true, wiA⟩

/-- Witness for `render_acquire_retry_logic`: an out-of-date first acquire
followed by a still-failing retry submits the command buffer and returns
`false` without presenting. -/
theorem render_acquire_retry_logic_witness :
    (Render baseState oRenderRetryFail false false).ret = false ∧
    (Render baseState oRenderRetryFail false false).presented = false ∧
    (Render baseState oRenderRetryFail false false).events =
      [RenderEvent.waitForPresentComplete,
       RenderEvent.acquireNextImage VkResult.VK_ERROR_OUT_OF_DATE_KHR,
       RenderEvent.resizeSwapChain,
       RenderEvent.acquireNextImage VkResult.otherError,
       RenderEvent.executeCommandBuffer false] :=
  ((render_acquire_retry_logic baseState oRenderRetryFail scA false rfl).1
    (Or.inr rfl) rfl).2 (by decide)

/-- `std::vector::resize` leaves the vector with exactly the requested number
of elements. -/
lemma vectorResize_length (v : List Nat) (n : Nat) :
    (vectorResize v n).length = n := by
  simp [vectorResize]
  omega

/-- C4: `RenderScreenshot` returns `false` whenever no swap chain exists; and
when a swap chain exists but there is no display texture, it fills
`out_pixels` entirely with zeros (after sizing it for the swap-chain format)
and returns `true` without rendering.  The last conjunct spells out the sizes
the `switch` picks for each handled swap-chain format. -/
theorem renderScreenshot_no_chain_no_texture (s : DisplayState)
    (o : ScreenshotOracle) (width height : Nat) (oldPixels : List Nat) :
    (s.swapChain = none → (RenderScreenshot s o width height oldPixels).ret = false) ∧
    (∀ sc, s.swapChain = some sc → o.hasDisplayTexture = false →
      (RenderScreenshot s o width height oldPixels).ret = true ∧
      (RenderScreenshot s o width height oldPixels).renderedDisplay = false ∧
      (RenderScreenshot s o width height oldPixels).pixels =
        List.replicate
          (screenshotPixelCount sc.textureFormat width height oldPixels.length) 0 ∧
      (RenderScreenshot s o width height oldPixels).stride =
        screenshotOutStride sc.textureFormat width ∧
      (RenderScreenshot s o width height oldPixels).format =
        screenshotOutFormat sc.textureFormat) ∧
    (screenshotPixelCount VkFormat.R8G8B8A8_UNORM width height oldPixels.length =
        width * height ∧
     screenshotPixelCount VkFormat.R8G8B8A8_SRGB width height oldPixels.length =
        width * height ∧
     screenshotPixelCount VkFormat.B8G8R8A8_UNORM width height oldPixels.length =
        width * height ∧
     screenshotPixelCount VkFormat.B8G8R8A8_SRGB width height oldPixels.length =
        width * height ∧
     screenshotPixelCount VkFormat.A1R5G5B5_UNORM_PACK16 width height oldPixels.length =
        (width * height + 1) / 2 ∧
     screenshotPixelCount VkFormat.R5G6B5_UNORM_PACK16 width height oldPixels.length =
        (width * height + 1) / 2) := by
  refine ⟨?_, ?_, rfl, rfl, rfl, rfl, rfl, rfl⟩
  · intro h
    simp [RenderScreenshot, h]
  · intro sc hsc hdt
    refine ⟨?_, ?_, ?_, ?_, ?_⟩ <;>
      simp [RenderScreenshot, hsc, hdt, vectorResize_length]

/-- Oracle for a screenshot taken while the display texture is absent. -/
def oShotNoTexture : ScreenshotOracle := ⟨false, true, true, true, []⟩

/-- Witness for `renderScreenshot_no_chain_no_texture`: with swap chain `scA`
(RGBA8) and no display texture, a 2x2 screenshot returns `true` with four zero
pixels and no rendering. -/
theorem renderScreenshot_no_chain_no_texture_witness :
    (RenderScreenshot baseState oShotNoTexture 2 2 []).ret = true ∧
    (RenderScreenshot baseState oShotNoTexture 2 2 []).renderedDisplay = false ∧
    (RenderScreenshot baseState oShotNoTexture 2 2 []).pixels = List.replicate 4 0 :=
  ⟨((renderScreenshot_no_chain_no_texture baseState oShotNoTexture 2 2 []).2.1
      scA rfl rfl).1,
   ((renderScreenshot_no_chain_no_texture baseState oShotNoTexture 2 2 []).2.1
      scA rfl rfl).2.1,
   ((renderScreenshot_no_chain_no_texture baseState oShotNoTexture 2 2 []).2.1
      scA rfl rfl).2.2.1⟩

/-- A sample entry of `m_post_processing_stages`. -/
def ppStageX : PostProcessingStage := ⟨16, true⟩

/-- A display state that already has one built post-processing stage. -/
def stateWithStages : DisplayState :=
  { baseState with postProcessingStages := [ppStageX],
                   postProcessingChain := [⟨true, 16⟩] }

/-- Oracle for a `SetPostProcessingChain` call whose
`PostProcessingChain::CreateFromString` parse fails. -/
def oParseFail : SetPPOracle := ⟨none, [], fun _ => true, fun _ => true, true⟩

/-- Counterexample to C5 as stated: a non-empty config whose chain parse fails
makes `SetPostProcessingChain` return `false` while the previously built stage
list (`m_post_processing_stages`) is left in place — the source returns right
after the failed `CreateFromString`, before the `m_post_processing_stages.clear()`
at line 971. -/
theorem setPostProcessingChain_parse_fail_keeps_stages :
    (SetPostProcessingChain stateWithStages oParseFail "x").ret = false ∧
    (SetPostProcessingChain stateWithStages oParseFail "x").state.postProcessingStages =
      [ppStageX] := by
  constructor <;> rfl

/-- C5 (amended): an empty config clears the stage list and the chain and
returns `true`; a failure after a successful parse (shader or pipeline
compilation failure, or uniform-buffer allocation failure) leaves both the
stage list and the chain cleared; but a chain parse failure returns `false`
without touching the stage list, which keeps its previous contents. -/
theorem setPostProcessingChain_failure_state (s : DisplayState)
    (o : SetPPOracle) (config : String) :
    (config.isEmpty = true →
      (SetPostProcessingChain s o config).ret = true ∧
      (SetPostProcessingChain s o config).state.postProcessingStages = [] ∧
      (SetPostProcessingChain s o config).state.postProcessingChain = []) ∧
    (config.isEmpty = false → o.parsed = none →
      (SetPostProcessingChain s o config).ret = false ∧
      (SetPostProcessingChain s o config).state.postProcessingStages =
        s.postProcessingStages) ∧
    (∀ shaders, config.isEmpty = false → o.parsed = some shaders →
      (SetPostProcessingChain s o config).ret = false →
      (SetPostProcessingChain s o config).state.postProcessingStages = [] ∧
      (SetPostProcessingChain s o config).state.postProcessingChain = []) := by
  refine ⟨?_, ?_, ?_⟩
  · intro hce
    refine ⟨?_, ?_, ?_⟩ <;> simp [SetPostProcessingChain, hce]
  · intro hce hp
    refine ⟨?_, ?_⟩ <;> simp [SetPostProcessingChain, hce, hp]
  · intro shaders hce hp hret
    rw [SetPostProcessingChain] at hret ⊢
    simp only [hce, Bool.false_eq_true, if_false, hp] at hret ⊢
    cases hb : buildStages o shaders 0 with
    | none => simp [hb]
    | some stages =>
      simp only [hb] at hret ⊢
      split at hret
      · split at hret
        · simp_all
        · simp_all
      · simp_all

/-- Witness for `setPostProcessingChain_failure_state`: a failed shader
compilation on a parsed two-stage chain leaves both lists cleared. -/
theorem setPostProcessingChain_failure_state_witness :
    (SetPostProcessingChain stateWithStages
        ⟨some [⟨true, 16⟩, ⟨false, 32⟩], [], fun _ => false, fun _ => true, true⟩
        "x").ret = false ∧
    (SetPostProcessingChain stateWithStages
        ⟨some [⟨true, 16⟩, ⟨false, 32⟩], [], fun _ => false, fun _ => true, true⟩
        "x").state.postProcessingStages = [] ∧
    (SetPostProcessingChain stateWithStages
        ⟨some [⟨true, 16⟩, ⟨false, 32⟩], [], fun _ => false, fun _ => true, true⟩
        "x").state.postProcessingChain = [] :=
  ⟨rfl,
   (setPostProcessingChain_failure_state stateWithStages
      ⟨some [⟨true, 16⟩, ⟨false, 32⟩], [], fun _ => false, fun _ => true, true⟩
      "x").2.2 [⟨true, 16⟩, ⟨false, 32⟩] rfl rfl rfl |>.1,
   (setPostProcessingChain_failure_state stateWithStages
      ⟨some [⟨true, 16⟩, ⟨false, 32⟩], [], fun _ => false, fun _ => true, true⟩
      "x").2.2 [⟨true, 16⟩, ⟨false, 32⟩] rfl rfl rfl |>.2⟩

/-- Characterisation of the stage loop when every descriptor-set allocation
succeeds: starting at stage `i` with current input `cur`, the loop draws the
stages `i, i+1, ..., n-1` in order, each into its own output framebuffer
except the last, which draws into the target; stage `i` samples `cur` and
every later stage samples the previous stage's output texture. -/
lemma ppStageLoop_all_ok (k : Nat) : ∀ (n i : Nat) (cur : PPTex), n - i = k →
    i < n →
    ppStageLoop n (fun _ => true) i cur =
      (List.range' i (n - i)).map (fun j =>
        PPEvent.stageDraw j
          (if j = n - 1 then PPFb.targetFb else PPFb.stageFb j)
          (if j = i then cur else PPTex.stageOutput (j - 1))) := by
  induction k with
  | zero =>
    intro n i cur hk hi
    omega
  | succ k ih =>
    intro n i cur hk hi
    rw [ppStageLoop]
    rw [dif_pos hi]
    simp only [Bool.true_eq_false, if_false]
    by_cases hfin : i = n - 1
    · have hn1 : i + 1 = n := by omega
      have hni : n - i = 1 := by omega
      rw [if_neg (by omega : ¬ i ≠ n - 1)]
      rw [ppStageLoop, dif_neg (by omega : ¬ i + 1 < n)]
      rw [hni]
      simp [hfin]
    · have hi1 : i + 1 < n := by omega
      rw [if_pos (by omega : i ≠ n - 1)]
      rw [ih n (i + 1) (PPTex.stageOutput i) (by omega) hi1]
      have hr : n - i = (n - (i + 1)) + 1 := by omega
      rw [hr, List.range'_succ, List.map_cons]
      rw [if_neg hfin, if_pos rfl]
      congr 1
      apply List.map_congr_left
      intro j hj
      have hjlo : i + 1 ≤ j := by
        have := List.mem_range'_1.mp hj
        omega
      rw [if_neg (by omega : ¬ j = i)]
      by_cases hji : j = i + 1
      · rw [if_pos hji, hji]
        simp
      · rw [if_neg hji]

/-- C6: for a post-processing chain of `N` stages, `ApplyPostProcessingChain`
first renders the display into the post-processing input texture, then runs
the stages in index order `0..N-1`; every stage except the last renders into
its own output texture, which becomes the next stage's input, and only the
final stage renders into the caller-supplied target framebuffer. -/
theorem applyPostProcessingChain_stage_order (n : Nat) (hn : 0 < n) :
    ApplyPostProcessingChain n true (fun _ => true) =
      PPEvent.displayDraw PPFb.inputFb ::
        (List.range n).map (fun i =>
          PPEvent.stageDraw i
            (if i = n - 1 then PPFb.targetFb else PPFb.stageFb i)
            (if i = 0 then PPTex.inputTexture else PPTex.stageOutput (i - 1))) := by
  unfold ApplyPostProcessingChain
  rw [if_neg (by simp)]
  rw [ppStageLoop_all_ok n n 0 PPTex.inputTexture (by omega) hn]
  rw [List.range_eq_range']
  simp

/-- Witness for `applyPostProcessingChain_stage_order` at a two-stage chain:
the display is drawn into the input framebuffer, stage 0 into its own output
sampling the input texture, and stage 1 into the target sampling stage 0's
output. -/
theorem applyPostProcessingChain_stage_order_witness :
    ApplyPostProcessingChain 2 true (fun _ => true) =
      [PPEvent.displayDraw PPFb.inputFb,
       PPEvent.stageDraw 0 (PPFb.stageFb 0) PPTex.inputTexture,
       PPEvent.stageDraw 1 PPFb.targetFb (PPTex.stageOutput 0)] := by
  rw [applyPostProcessingChain_stage_order 2 (by omega)]
  rfl

end VulkanHostDisplaySpec
